import Mathlib

/-!
Verification of the rotbaum preprocessing module
(`src/gluonts/model/rotbaum/_preprocess.py`).

The module is embedded shallowly:

* numeric observations are rationals (exact arithmetic in place of numpy
  floats);
* Python list slicing and indexing get explicit counterparts (`pySlice`,
  `pyGet`) that follow CPython's clamping and negative-index rules;
* methods of `PreprocessGeneric` become functions over an explicit record
  `PState` of the instance attributes set by `__init__`;
* Python runtime exceptions raised on the modelled paths (AssertionError,
  TypeError, ZeroDivisionError, ValueError) appear as an `Except PyErr`
  result;
* `np.random.randint(m)` is modelled by an oracle stream `draws : ℕ → ℕ`
  reduced modulo `m`, so each draw lies in `[0, m)` as numpy guarantees;
* `np.std`, being irrational in general, is an explicit function parameter
  `std : List ℚ → ℚ`; every theorem holds for every choice of `std`.
-/

deriving instance DecidableEq for Except

namespace Rotbaum

/-- A Python value occurring in a feature list: the `None` padding marker
or a number. -/
inductive PyVal where
  | none : PyVal
  | num : ℚ → PyVal
deriving DecidableEq, Repr

/-- Python runtime exceptions raised on the modelled code paths. -/
inductive PyErr where
  | assertionError : PyErr
  | typeError : PyErr
  | zeroDivisionError : PyErr
  | valueError : PyErr
deriving DecidableEq, Repr

/-- A time-series dict with `target` and `start` keys.  The `start`
timestamp is carried along but never inspected by the preprocessor. -/
structure TimeSeries where
  target : List ℚ
  start : ℤ
deriving DecidableEq, Repr

/-- CPython's clamping of a slice endpoint for a sequence of length `n`:
a negative index counts from the end, and the result is clamped into
`[0, n]`. -/
def pySliceIdx (n : ℕ) (i : ℤ) : ℕ :=
  min (if i < 0 then i + (n : ℤ) else i).toNat n

/-- Python list slicing `l[a : b]` (step 1). -/
def pySlice {α : Type} (l : List α) (a b : ℤ) : List α :=
  (l.take (pySliceIdx l.length b)).drop (pySliceIdx l.length a)

/-- Python indexing `l[i]`: a negative index counts from the end.  An
out-of-range read raises IndexError in Python and is modelled by the
default `0`; no theorem below evaluates it out of range. -/
def pyGet (l : List ℚ) (i : ℤ) : ℚ :=
  if i < 0 then l.getD (i + (l.length : ℤ)).toNat 0 else l.getD i.toNat 0

/-- The attributes an instance of `PreprocessGeneric` holds after
`__init__`.  The keyword arguments swallowed by `**kwargs` are modelled by
the one key that matters, `num_samples` (present iff
`kwargs_num_samples` is `some`). -/
structure PState where
  context_window_size : ℤ
  forecast_horizon : ℤ
  stratify_targets : Bool
  n_ignore_last : ℤ
  kwargs_num_samples : Option ℤ
  num_samples : Option ℤ
  feature_data : Option (List (List PyVal))
  target_data : Option (List (List ℚ))
deriving DecidableEq, Repr

/-- `PreprocessGeneric.__init__`: asserts
`not (stratify_targets and forecast_horizon == 1)`, then stores the
parameters and initialises `num_samples`, `feature_data`, `target_data`
to `None`. -/
def PreprocessGeneric.init (context_window_size forecast_horizon : ℤ)
    (stratify_targets : Bool) (n_ignore_last : ℤ)
    (kwargs_num_samples : Option ℤ) : Except PyErr PState :=
  if stratify_targets = true ∧ forecast_horizon = 1 then
    .error .assertionError
  else
    .ok { context_window_size := context_window_size,
          forecast_horizon := forecast_horizon,
          stratify_targets := stratify_targets,
          n_ignore_last := n_ignore_last,
          kwargs_num_samples := kwargs_num_samples,
          num_samples := Option.none,
          feature_data := Option.none,
          target_data := Option.none }

/-- `PreprocessOnlyLagFeatures.__init__`: forwards to the superclass
constructor.  Its own `num_samples` parameter is passed on as a keyword
argument, which the superclass signature does not bind, so it lands in
`**kwargs`. -/
def PreprocessOnlyLagFeatures.init (context_window_size forecast_horizon : ℤ)
    (stratify_targets : Bool) (n_ignore_last num_samples : ℤ) :
    Except PyErr PState :=
  PreprocessGeneric.init context_window_size forecast_horizon
    stratify_targets n_ignore_last (Option.some num_samples)

/-- `n_time_series` of `get_num_samples`: the number of series with
`len(target) - context_window_size - forecast_horizon >= 0` (Python sums
the booleans). -/
def nTimeSeries (s : PState) (ts_list : List TimeSeries) : ℤ :=
  ((ts_list.filter (fun ts =>
      decide ((ts.target.length : ℤ) - s.context_window_size
        - s.forecast_horizon ≥ 0))).length : ℤ)

/-- `max_size_ts` of `get_num_samples`: the longest series length.
Python's `max` raises ValueError on an empty list; `get_num_samples`
guards that case, so the fold's base `0` (≤ every length) is never the
answer there. -/
def maxSizeTs (ts_list : List TimeSeries) : ℤ :=
  (ts_list.map (fun ts => ((ts.target.length : ℤ)))).foldl max 0

/-- `PreprocessGeneric.get_num_samples`.  Python evaluates
`n_time_series`, then `max(...)` (ValueError on an empty list), then
`400000 // n_time_series` (ZeroDivisionError when no series is long
enough); `//` is floor division, `Int.fdiv`. -/
def get_num_samples (s : PState) (ts_list : List TimeSeries) :
    Except PyErr ℤ :=
  let n_time_series := nTimeSeries s ts_list
  if ts_list = [] then .error .valueError
  else
    let max_size_ts := maxSizeTs ts_list
    if n_time_series = 0 then .error .zeroDivisionError
    else
      let n0 := Int.fdiv 400000 n_time_series
      .ok (if n_time_series * 1000 < n0 then n_time_series * 1000
           else if n0 = 0 then 1
           else if n0 > max_size_ts then -1
           else n0)

/-- `np.mean` over a window, in exact arithmetic (`sum / length`; numpy
warns and yields NaN on an empty window, here the `ℚ` convention
`x / 0 = 0` stands in — every structural theorem below is insensitive to
that value). -/
def npMean (l : List ℚ) : ℚ :=
  l.sum / (l.length : ℚ)

/-- `PreprocessOnlyLagFeatures._pre_transform`: the mean-adjusted window
together with the values of the statistics dict
`{mean, std, n_lag_features}` in insertion order (Python 3.7 dicts
preserve it, and `make_features` consumes `transform_dict.values()`). -/
def pre_transform (std : List ℚ → ℚ) (time_series_window : List ℚ) :
    List ℚ × List ℚ :=
  (time_series_window.map (fun x => x - npMean time_series_window),
   [npMean time_series_window, std time_series_window,
    (time_series_window.length : ℚ)])

/-- `PreprocessOnlyLagFeatures.make_features`: pad with `None` when the
window starts before the series beginning, then the mean-adjusted lag
values, then the statistics. -/
def make_features (std : List ℚ → ℚ) (context_window_size : ℤ)
    (time_series : TimeSeries) (starting_index : ℤ) : List PyVal :=
  let end_index := starting_index + context_window_size
  let pad : List PyVal :=
    if starting_index < 0 then
      List.replicate (-starting_index).toNat PyVal.none
    else []
  let time_series_window := pySlice time_series.target starting_index end_index
  let p := pre_transform std time_series_window
  pad ++ p.1.map PyVal.num ++ p.2.map PyVal.num

/-- The trimmed series of `preprocess_from_single_ts`: with
`n_ignore_last > 0` the target becomes `target[: -n_ignore_last]`. -/
def alteredOf (s : PState) (time_series : TimeSeries) : TimeSeries :=
  if s.n_ignore_last > 0 then
    { target := pySlice time_series.target 0 (-s.n_ignore_last),
      start := time_series.start }
  else time_series

/-- `max_num_context_windows` of `preprocess_from_single_ts`, computed on
the trimmed series. -/
def maxNumContextWindows (s : PState) (time_series : TimeSeries) : ℤ :=
  ((alteredOf s time_series).target.length : ℤ)
    - s.context_window_size - s.forecast_horizon + 1

/-- The loop body of `preprocess_from_single_ts` for one window start:
the (feature, target) rows it appends.  Features come from the trimmed
series `altered`, targets are read from the original `time_series`
(exactly as in the source).  `mf` stands for the virtual call
`self.make_features` on the trimmed series. -/
def processWindow (mf : TimeSeries → ℤ → List PyVal) (s : PState)
    (time_series altered : TimeSeries) (starting_index : ℤ) :
    List (List PyVal) × List (List ℚ) :=
  if s.stratify_targets then
    ((List.range s.forecast_horizon.toNat).map
       (fun (forecast_horizon_index : ℕ) =>
         mf altered starting_index
           ++ [PyVal.num (forecast_horizon_index : ℚ)]),
     (List.range s.forecast_horizon.toNat).map
       (fun (forecast_horizon_index : ℕ) =>
         [pyGet time_series.target
            (starting_index + s.context_window_size
              + (forecast_horizon_index : ℤ))]))
  else
    ([mf altered starting_index],
     [pySlice time_series.target
        (starting_index + s.context_window_size)
        (starting_index + s.context_window_size + s.forecast_horizon)])

/-- The accumulation loop of `preprocess_from_single_ts` over the chosen
window starts. -/
def processLocations (mf : TimeSeries → ℤ → List PyVal) (s : PState)
    (time_series altered : TimeSeries) (locations : List ℤ) :
    List (List PyVal) × List (List ℚ) :=
  locations.foldl
    (fun acc starting_index =>
      let p := processWindow mf s time_series altered starting_index
      (acc.1 ++ p.1, acc.2 ++ p.2))
    ([], [])

/-- `PreprocessGeneric.preprocess_from_single_ts`.  The comparison
`self.num_samples > 0` raises TypeError when `num_samples` is still
`None`; `np.random.randint(max_num_context_windows)` is the oracle draw
reduced modulo the bound; with `num_samples <= 0` the starts are
`range(max_num_context_windows)`. -/
def preprocess_from_single_ts (mf : TimeSeries → ℤ → List PyVal)
    (draws : ℕ → ℕ) (s : PState) (time_series : TimeSeries) :
    Except PyErr (List (List PyVal) × List (List ℚ)) :=
  let altered := alteredOf s time_series
  let max_num_context_windows := maxNumContextWindows s time_series
  if max_num_context_windows < 1 then .ok ([], [])
  else
    match s.num_samples with
    | Option.none => .error .typeError
    | Option.some n =>
      let locations : List ℤ :=
        if n > 0 then
          (List.range n.toNat).map
            (fun (i : ℕ) => ((draws i % max_num_context_windows.toNat : ℕ) : ℤ))
        else
          (List.range max_num_context_windows.toNat).map
            (fun (i : ℕ) => (i : ℤ))
      .ok (processLocations mf s time_series altered locations)

/-- `preprocess_from_single_ts` as a state-and-argument transformer: the
method assigns no attribute of `self` and never writes into the
`time_series` dict (only reads and non-mutating slices appear in its
body), so both come back unchanged next to the result. -/
def preprocess_from_single_ts_st (mf : TimeSeries → ℤ → List PyVal)
    (draws : ℕ → ℕ) (s : PState) (time_series : TimeSeries) :
    PState × TimeSeries × Except PyErr (List (List PyVal) × List (List ℚ)) :=
  (s, time_series, preprocess_from_single_ts mf draws s time_series)

/-- The `for time_series in ts_list` loop of `preprocess_from_list`:
concatenates the per-series results, each series consuming its own
random stream `rng i`. -/
def collectFromList (mf : TimeSeries → ℤ → List PyVal) (rng : ℕ → ℕ → ℕ)
    (s : PState) :
    List TimeSeries → ℕ →
      Except PyErr (List (List PyVal) × List (List ℚ))
  | [], _ => .ok ([], [])
  | time_series :: rest, i => do
    let p ← preprocess_from_single_ts mf (rng i) s time_series
    let r ← collectFromList mf rng s rest (i + 1)
    .ok (p.1 ++ r.1, p.2 ++ r.2)

/-- `PreprocessGeneric.preprocess_from_list`: first
`self.num_samples = self.get_num_samples(ts_list)`, then the collection
loop; with `change_internal_variables` the collated lists go into
`self.feature_data` / `self.target_data` and the method returns `None`,
otherwise the state keeps its old lists and the pair is returned. -/
def preprocess_from_list (mf : TimeSeries → ℤ → List PyVal)
    (rng : ℕ → ℕ → ℕ) (s : PState) (ts_list : List TimeSeries)
    (change_internal_variables : Bool) :
    Except PyErr
      (PState × Option (List (List PyVal) × List (List ℚ))) := do
  let ns ← get_num_samples s ts_list
  let s1 := { s with num_samples := Option.some ns }
  let p ← collectFromList mf rng s1 ts_list 0
  if change_internal_variables then
    .ok ({ s1 with feature_data := Option.some p.1, target_data := Option.some p.2 },
         Option.none)
  else
    .ok (s1, Option.some p)

/-- The sample-count rule exactly as the specification words it (to be
compared with `get_num_samples`, which is translated from the source):
count the series long enough to yield at least one window, take the
longest series length, set `n = 400000 // n_time_series`, cap by
`n_time_series * 1000`, else lift `0` to `1`, else signal `-1` when `n`
exceeds the longest length. -/
def get_num_samples_spec (context_window_size forecast_horizon : ℤ)
    (ts_list : List TimeSeries) : ℤ :=
  let n_time_series : ℤ :=
    ((ts_list.filter (fun ts =>
        decide (0 ≤ (ts.target.length : ℤ) - context_window_size
          - forecast_horizon))).length : ℤ)
  let max_size_ts : ℤ :=
    (ts_list.map (fun ts => ((ts.target.length : ℤ)))).foldl max 0
  let n := Int.fdiv 400000 n_time_series
  if n_time_series * 1000 < n then n_time_series * 1000
  else if n = 0 then 1
  else if n > max_size_ts then -1
  else n

/-! Concrete fixtures used by witnesses and counterexamples. -/

/-- A trivial stand-in for `np.std` (theorems quantify over all of them). -/
def stdW : List ℚ → ℚ := fun _ => 0

/-- A trivial pluggable `make_features` for witnesses of the generic
(`make_features`-independent) theorems. -/
def mfW : TimeSeries → ℤ → List PyVal := fun _ _ => []

/-- A constant random oracle. -/
def drawsW : ℕ → ℕ := fun _ => 0

/-- A constant per-series random oracle. -/
def rngW : ℕ → ℕ → ℕ := fun _ _ => 0

/-- The seven-point series of the spec's end-to-end scenario. -/
def tsA : TimeSeries := { target := [1, 2, 3, 4, 5, 6, 7], start := 0 }

/-- A two-point series: too short for one window at `c = 2`, `h = 1`. -/
def tsShort : TimeSeries := { target := [1, 2], start := 0 }

/-- A ten-point series (the `max_size_ts = 10` scenario). -/
def tsTen : TimeSeries :=
  { target := [1, 2, 3, 4, 5, 6, 7, 8, 9, 10], start := 0 }

/-- A preprocessor state with `c = 2`, `h = 1`, no stratification, no
trimming, `num_samples = -1` (full enumeration). -/
def sEnum : PState :=
  { context_window_size := 2, forecast_horizon := 1,
    stratify_targets := false, n_ignore_last := 0,
    kwargs_num_samples := Option.none, num_samples := Option.some (-1),
    feature_data := Option.none, target_data := Option.none }

/-- A stratifying state with `c = 2`, `h = 3`. -/
def sStrat : PState :=
  { context_window_size := 2, forecast_horizon := 3,
    stratify_targets := true, n_ignore_last := 0,
    kwargs_num_samples := Option.none, num_samples := Option.some (-1),
    feature_data := Option.none, target_data := Option.none }

/-- A three-point series: exactly one window at `c = 2`, `h = 1`. -/
def tsThree : TimeSeries := { target := [1, 2, 3], start := 0 }

/-- The state a fresh `PreprocessOnlyLagFeatures(2, 1, False, 0, 7)`
holds: the `num_samples` argument sits in `kwargs`, the attribute
`num_samples` is `None`. -/
def stC9 : PState :=
  { context_window_size := 2, forecast_horizon := 1,
    stratify_targets := false, n_ignore_last := 0,
    kwargs_num_samples := Option.some 7, num_samples := Option.none,
    feature_data := Option.none, target_data := Option.none }

/-- The state a run of `preprocess_from_list` over twenty three-point
series (with `change_internal_variables = True`) leaves behind when it
starts from `sEnum`. -/
def sAfter : PState :=
  { sEnum with
      num_samples := Option.some (-1)
      feature_data := Option.some (List.replicate 20 ([] : List PyVal))
      target_data := Option.some (List.replicate 20 [(3 : ℚ)]) }

/-! Helper lemmas about the accumulation loop. -/

lemma processLocations_go (mf : TimeSeries → ℤ → List PyVal) (s : PState)
    (time_series altered : TimeSeries) :
    ∀ (L : List ℤ) (acc : List (List PyVal) × List (List ℚ)),
      L.foldl
        (fun acc starting_index =>
          let p := processWindow mf s time_series altered starting_index
          (acc.1 ++ p.1, acc.2 ++ p.2)) acc =
      (acc.1 ++ (processLocations mf s time_series altered L).1,
       acc.2 ++ (processLocations mf s time_series altered L).2) := by
  intro L
  induction L with
  | nil => intro acc; simp [processLocations]
  | cons i L ih =>
    intro acc
    have hpl : processLocations mf s time_series altered (i :: L) =
        ((processWindow mf s time_series altered i).1
           ++ (processLocations mf s time_series altered L).1,
         (processWindow mf s time_series altered i).2
           ++ (processLocations mf s time_series altered L).2) := by
      show (i :: L).foldl _ ([], []) = _
      rw [List.foldl_cons, ih]
      simp
    rw [List.foldl_cons, ih, hpl]
    simp [List.append_assoc]

lemma processLocations_cons (mf : TimeSeries → ℤ → List PyVal) (s : PState)
    (time_series altered : TimeSeries) (i : ℤ) (L : List ℤ) :
    processLocations mf s time_series altered (i :: L) =
      ((processWindow mf s time_series altered i).1
         ++ (processLocations mf s time_series altered L).1,
       (processWindow mf s time_series altered i).2
         ++ (processLocations mf s time_series altered L).2) := by
  show (i :: L).foldl _ ([], []) = _
  rw [List.foldl_cons, processLocations_go]
  simp

lemma processLocations_not_stratified (mf : TimeSeries → ℤ → List PyVal)
    (s : PState) (hs : s.stratify_targets = false)
    (time_series altered : TimeSeries) (L : List ℤ) :
    processLocations mf s time_series altered L =
      (L.map (fun starting_index => mf altered starting_index),
       L.map (fun starting_index =>
         pySlice time_series.target
           (starting_index + s.context_window_size)
           (starting_index + s.context_window_size + s.forecast_horizon))) := by
  induction L with
  | nil => simp [processLocations]
  | cons i L ih =>
    rw [processLocations_cons, ih]
    simp [processWindow, hs]

lemma processWindow_stratified_length (mf : TimeSeries → ℤ → List PyVal)
    (s : PState) (hs : s.stratify_targets = true)
    (time_series altered : TimeSeries) (i : ℤ) :
    (processWindow mf s time_series altered i).1.length =
      s.forecast_horizon.toNat ∧
    (processWindow mf s time_series altered i).2.length =
      s.forecast_horizon.toNat := by
  rw [processWindow, if_pos (by simp [hs])]
  constructor
  · exact (List.length_map _ _).trans (List.length_range _)
  · exact (List.length_map _ _).trans (List.length_range _)

lemma processLocations_stratified_length (mf : TimeSeries → ℤ → List PyVal)
    (s : PState) (hs : s.stratify_targets = true)
    (time_series altered : TimeSeries) (L : List ℤ) :
    (processLocations mf s time_series altered L).1.length =
      s.forecast_horizon.toNat * L.length ∧
    (processLocations mf s time_series altered L).2.length =
      s.forecast_horizon.toNat * L.length := by
  induction L with
  | nil => simp [processLocations]
  | cons i L ih =>
    rw [processLocations_cons]
    simp only [List.length_append, ih.1, ih.2, List.length_cons,
      (processWindow_stratified_length mf s hs time_series altered i).1,
      (processWindow_stratified_length mf s hs time_series altered i).2]
    constructor <;> ring

/-- C5: construction fails with the assertion exactly when
`stratify_targets` is set and `forecast_horizon = 1`; every other
combination yields the initialised state. -/
theorem init_rejects_exactly_stratified_unit_horizon
    (c h : ℤ) (strat : Bool) (nig : ℤ) (kw : Option ℤ) :
    (PreprocessGeneric.init c h strat nig kw = .error .assertionError ↔
      strat = true ∧ h = 1) ∧
    (¬(strat = true ∧ h = 1) →
      PreprocessGeneric.init c h strat nig kw =
        .ok { context_window_size := c, forecast_horizon := h,
              stratify_targets := strat, n_ignore_last := nig,
              kwargs_num_samples := kw, num_samples := Option.none,
              feature_data := Option.none, target_data := Option.none }) := by
  by_cases hc : strat = true ∧ h = 1 <;>
    simp [PreprocessGeneric.init, hc]

/-- Witness for C5 at `(stratify, h) = (True, 1)` and `(True, 3)`. -/
theorem init_rejects_exactly_stratified_unit_horizon_witness :
    PreprocessGeneric.init 2 1 true 0 Option.none = .error .assertionError ∧
    PreprocessGeneric.init 2 3 true 0 Option.none =
      .ok { context_window_size := 2, forecast_horizon := 3,
            stratify_targets := true, n_ignore_last := 0,
            kwargs_num_samples := Option.none, num_samples := Option.none,
            feature_data := Option.none, target_data := Option.none } :=
  ⟨(init_rejects_exactly_stratified_unit_horizon 2 1 true 0
      Option.none).1.mpr ⟨rfl, rfl⟩,
   (init_rejects_exactly_stratified_unit_horizon 2 3 true 0
      Option.none).2 (by decide)⟩

/-- C6: with a non-empty collection but no eligible series the heuristic
hits `400000 // 0` and raises ZeroDivisionError; with at least one
eligible series it always returns a value. -/
theorem get_num_samples_division_guard (s : PState) (l : List TimeSeries) :
    (l ≠ [] → nTimeSeries s l = 0 →
      get_num_samples s l = .error .zeroDivisionError) ∧
    (1 ≤ nTimeSeries s l → ∃ v, get_num_samples s l = .ok v) := by
  constructor
  · intro hne h0
    simp only [get_num_samples]
    rw [if_neg hne, if_pos h0]
  · intro h1
    have hne : l ≠ [] := by
      intro h
      subst h
      simp [nTimeSeries] at h1
    have hn0 : ¬(nTimeSeries s l = 0) := by omega
    exact ⟨_, by simp only [get_num_samples]; rw [if_neg hne, if_neg hn0]⟩

/-- Witness for C6: one two-point series (ineligible at `c = 2`,
`h = 1`) versus one ten-point series. -/
theorem get_num_samples_division_guard_witness :
    get_num_samples sEnum [tsShort] = .error .zeroDivisionError ∧
    ∃ v, get_num_samples sEnum [tsTen] = .ok v :=
  ⟨(get_num_samples_division_guard sEnum [tsShort]).1 (by decide) (by decide),
   (get_num_samples_division_guard sEnum [tsTen]).2 (by decide)⟩

/-- C3 fails on the code: with one eligible series and `max_size_ts = 10`
the first branch (`1 * 1000 < 400000 // 1`) fires, so the heuristic
returns `1000`; the `max_size_ts` comparison sits behind `elif` and is
never reached, hence the result is not `-1`. -/
theorem get_num_samples_one_ten_counterexample :
    nTimeSeries sEnum [tsTen] = 1 ∧ maxSizeTs [tsTen] = 10 ∧
    get_num_samples sEnum [tsTen] = .ok 1000 ∧
    get_num_samples sEnum [tsTen] ≠ .ok (-1) := by
  refine ⟨by decide, by decide, by decide, by decide⟩

/-- C3 amended: whenever exactly one series is eligible (whatever
`max_size_ts`, in particular `10`), `get_num_samples` returns `1000`. -/
theorem get_num_samples_single_series_yields_1000
    (s : PState) (l : List TimeSeries) (h1 : nTimeSeries s l = 1) :
    get_num_samples s l = .ok 1000 := by
  have hne : l ≠ [] := by
    intro h
    subst h
    simp [nTimeSeries] at h1
  have hdiv : Int.fdiv 400000 1 = 400000 := by decide
  simp only [get_num_samples, h1]
  rw [if_neg hne]
  norm_num [hdiv]

/-- Witness for C3's amended claim at the ten-point series. -/
theorem get_num_samples_single_series_yields_1000_witness :
    get_num_samples sEnum [tsTen] = .ok 1000 :=
  get_num_samples_single_series_yields_1000 sEnum [tsTen] (by decide)

/-- C2: with at least one long-enough series the heuristic agrees with
the value the specification describes. -/
theorem get_num_samples_matches_its_spec (s : PState) (l : List TimeSeries)
    (hw : ∃ ts ∈ l,
      s.context_window_size + s.forecast_horizon ≤ (ts.target.length : ℤ)) :
    get_num_samples s l =
      .ok (get_num_samples_spec s.context_window_size s.forecast_horizon l) := by
  obtain ⟨ts, hts, hlen⟩ := hw
  have hne : l ≠ [] := by
    intro h
    subst h
    exact absurd hts (List.not_mem_nil ts)
  have hp : decide ((ts.target.length : ℤ) - s.context_window_size
      - s.forecast_horizon ≥ 0) = true := by
    simp only [decide_eq_true_eq]
    omega
  have hmem : ts ∈ l.filter (fun ts =>
      decide ((ts.target.length : ℤ) - s.context_window_size
        - s.forecast_horizon ≥ 0)) := List.mem_filter.mpr ⟨hts, hp⟩
  have hpos := List.length_pos.mpr (List.ne_nil_of_mem hmem)
  have hn1 : 1 ≤ nTimeSeries s l := by
    unfold nTimeSeries
    exact_mod_cast hpos
  have hn0 : ¬(nTimeSeries s l = 0) := by omega
  simp only [get_num_samples, get_num_samples_spec, nTimeSeries, maxSizeTs]
  rw [if_neg hne, if_neg (by simpa [nTimeSeries] using hn0)]

/-- Witness for C2 at the ten-point series. -/
theorem get_num_samples_matches_its_spec_witness :
    get_num_samples sEnum [tsTen] =
      .ok (get_num_samples_spec sEnum.context_window_size
        sEnum.forecast_horizon [tsTen]) :=
  get_num_samples_matches_its_spec sEnum [tsTen] (by decide)

/-- C1: a series too short for one window yields two empty lists, and
with `num_samples <= 0` and no stratification the result enumerates every
start index `0, 1, ..., max_num_context_windows - 1` in increasing order,
so the output holds `max 0 (L - c - h + 1)` pairs for a trimmed length
`L`. -/
theorem preprocess_single_ts_enumeration (mf : TimeSeries → ℤ → List PyVal)
    (draws : ℕ → ℕ) (s : PState) (time_series : TimeSeries) (n : ℤ) :
    (maxNumContextWindows s time_series < 1 →
      preprocess_from_single_ts mf draws s time_series = .ok ([], [])) ∧
    (s.num_samples = Option.some n → n ≤ 0 → s.stratify_targets = false →
      1 ≤ maxNumContextWindows s time_series →
      preprocess_from_single_ts mf draws s time_series =
        .ok ((List.range (maxNumContextWindows s time_series).toNat).map
               (fun (i : ℕ) => mf (alteredOf s time_series) (i : ℤ)),
             (List.range (maxNumContextWindows s time_series).toNat).map
               (fun (i : ℕ) => pySlice time_series.target
                 ((i : ℤ) + s.context_window_size)
                 ((i : ℤ) + s.context_window_size + s.forecast_horizon))) ∧
      (((List.range (maxNumContextWindows s time_series).toNat).map
          (fun (i : ℕ) => mf (alteredOf s time_series) (i : ℤ))).length : ℤ) =
        max 0 (((alteredOf s time_series).target.length : ℤ)
          - s.context_window_size - s.forecast_horizon + 1)) := by
  constructor
  · intro hlt
    simp only [preprocess_from_single_ts]
    rw [if_pos hlt]
  · intro h1 h2 h3 h4
    have hlt : ¬(maxNumContextWindows s time_series < 1) := by omega
    constructor
    · simp only [preprocess_from_single_ts, h1]
      rw [if_neg hlt, if_neg (by omega : ¬(n > 0))]
      rw [processLocations_not_stratified mf s h3]
      simp [List.map_map, Function.comp]
    · rw [List.length_map, List.length_range]
      simp only [maxNumContextWindows]
      omega

/-- Witness for C1: the two-point series gives empty output, the
seven-point series enumerates its five windows. -/
theorem preprocess_single_ts_enumeration_witness :
    preprocess_from_single_ts mfW drawsW sEnum tsShort = .ok ([], []) ∧
    preprocess_from_single_ts mfW drawsW sEnum tsA =
      .ok ([[], [], [], [], []], [[3], [4], [5], [6], [7]]) ∧
    (((List.range (maxNumContextWindows sEnum tsA).toNat).map
        (fun (i : ℕ) => mfW (alteredOf sEnum tsA) (i : ℤ))).length : ℤ) =
      max 0 (((alteredOf sEnum tsA).target.length : ℤ)
        - sEnum.context_window_size - sEnum.forecast_horizon + 1) :=
  ⟨(preprocess_single_ts_enumeration mfW drawsW sEnum tsShort (-1)).1
     (by decide),
   ((preprocess_single_ts_enumeration mfW drawsW sEnum tsA (-1)).2
      rfl (by decide) rfl (by decide)).1.trans (by decide),
   ((preprocess_single_ts_enumeration mfW drawsW sEnum tsA (-1)).2
      rfl (by decide) rfl (by decide)).2⟩

/-- C4: for the same start index, stratified mode turns one window into
`forecast_horizon` samples — each feature row is the plain feature row
with the horizon offset `0 .. h - 1` appended, each target the single
scalar `target[start + c + offset]` — while non-stratified mode emits one
(feature, target-slice) pair; over any list of start indices the
stratified output is `forecast_horizon` times as long. -/
theorem stratified_expands_each_window (mf : TimeSeries → ℤ → List PyVal)
    (s : PState) (hs : s.stratify_targets = true)
    (time_series altered : TimeSeries) (starting_index : ℤ) (L : List ℤ) :
    processWindow mf { s with stratify_targets := false }
        time_series altered starting_index =
      ([mf altered starting_index],
       [pySlice time_series.target
          (starting_index + s.context_window_size)
          (starting_index + s.context_window_size + s.forecast_horizon)]) ∧
    (processWindow mf s time_series altered starting_index).1 =
      (List.range s.forecast_horizon.toNat).map
        (fun (j : ℕ) => mf altered starting_index ++ [PyVal.num (j : ℚ)]) ∧
    (processWindow mf s time_series altered starting_index).2 =
      (List.range s.forecast_horizon.toNat).map
        (fun (j : ℕ) => [pyGet time_series.target
          (starting_index + s.context_window_size + (j : ℤ))]) ∧
    (processLocations mf s time_series altered L).1.length =
      s.forecast_horizon.toNat *
        (processLocations mf { s with stratify_targets := false }
          time_series altered L).1.length ∧
    (processLocations mf s time_series altered L).2.length =
      s.forecast_horizon.toNat *
        (processLocations mf { s with stratify_targets := false }
          time_series altered L).2.length := by
  refine ⟨by simp [processWindow], by simp [processWindow, hs],
    by simp [processWindow, hs], ?_, ?_⟩
  · rw [(processLocations_stratified_length mf s hs time_series altered L).1,
      processLocations_not_stratified mf _ rfl time_series altered L]
    simp
  · rw [(processLocations_stratified_length mf s hs time_series altered L).2,
      processLocations_not_stratified mf _ rfl time_series altered L]
    simp

/-- Witness for C4 at the stratifying state (`c = 2`, `h = 3`), start 0,
and the start list `[0, 1]`. -/
theorem stratified_expands_each_window_witness :
    processWindow mfW { sStrat with stratify_targets := false } tsA tsA 0 =
      ([[]], [[3, 4, 5]]) ∧
    (processWindow mfW sStrat tsA tsA 0).1 =
      [[PyVal.num 0], [PyVal.num 1], [PyVal.num 2]] ∧
    (processWindow mfW sStrat tsA tsA 0).2 = [[3], [4], [5]] ∧
    (processLocations mfW sStrat tsA tsA [0, 1]).1.length =
      3 * (processLocations mfW { sStrat with stratify_targets := false }
        tsA tsA [0, 1]).1.length ∧
    (processLocations mfW sStrat tsA tsA [0, 1]).2.length =
      3 * (processLocations mfW { sStrat with stratify_targets := false }
        tsA tsA [0, 1]).2.length :=
  ⟨(stratified_expands_each_window mfW sStrat rfl tsA tsA 0 [0, 1]).1.trans
     (by decide),
   (stratified_expands_each_window mfW sStrat rfl tsA tsA 0
      [0, 1]).2.1.trans (by decide),
   (stratified_expands_each_window mfW sStrat rfl tsA tsA 0
      [0, 1]).2.2.1.trans (by decide),
   (stratified_expands_each_window mfW sStrat rfl tsA tsA 0 [0, 1]).2.2.2.1,
   (stratified_expands_each_window mfW sStrat rfl tsA tsA 0 [0, 1]).2.2.2.2⟩

/-- A constant subtracted from every entry lowers the sum by `length`
times the constant. -/
lemma sum_map_sub_const (l : List ℚ) (m : ℚ) :
    (l.map (fun x => x - m)).sum = l.sum - (l.length : ℚ) * m := by
  induction l with
  | nil => simp
  | cons a l ih =>
    simp only [List.map_cons, List.sum_cons, ih, List.length_cons]
    push_cast
    ring

/-- Mean-centering makes the sum vanish. -/
lemma sum_centered (l : List ℚ) :
    (l.map (fun x => x - npMean l)).sum = 0 := by
  rw [sum_map_sub_const, npMean]
  rcases eq_or_ne l.length 0 with h | h
  · rw [List.length_eq_zero.mp h]
    simp
  · have hc : (l.length : ℚ) ≠ 0 := Nat.cast_ne_zero.mpr h
    rw [mul_comm, div_mul_cancel₀ _ hc, sub_self]

/-- C7: the lag-feature vector is the `None` padding (of length
`-starting_index` exactly when the start is negative), then the
mean-centered window, then mean, standard deviation and window length in
that order; the centered portion sums to zero. -/
theorem make_features_layout (std : List ℚ → ℚ) (c : ℤ)
    (time_series : TimeSeries) (starting_index : ℤ) :
    make_features std c time_series starting_index =
      (if starting_index < 0 then
        List.replicate (-starting_index).toNat PyVal.none
      else [])
        ++ ((pySlice time_series.target starting_index
              (starting_index + c)).map
            (fun x => PyVal.num (x - npMean (pySlice time_series.target
              starting_index (starting_index + c)))))
        ++ [PyVal.num (npMean (pySlice time_series.target starting_index
              (starting_index + c))),
            PyVal.num (std (pySlice time_series.target starting_index
              (starting_index + c))),
            PyVal.num (((pySlice time_series.target starting_index
              (starting_index + c)).length : ℚ))] ∧
    ((pySlice time_series.target starting_index
        (starting_index + c)).map
      (fun x => x - npMean (pySlice time_series.target starting_index
        (starting_index + c)))).sum = 0 := by
  constructor
  · simp [make_features, pre_transform, List.map_map, Function.comp]
  · exact sum_centered _

/-- C8: on `[1,2,3,4,5,6,7]` with `c = 2`, `h = 1`, full enumeration and
no stratification, the five windows at starts `0..4` appear in order:
each feature row is the centered pair `[-1/2, 1/2]` followed by the
window mean, standard deviation and length, and the targets are
`[3], [4], [5], [6], [7]`. -/
theorem preprocess_single_ts_end_to_end (std : List ℚ → ℚ)
    (draws : ℕ → ℕ) :
    preprocess_from_single_ts (make_features std 2) draws sEnum tsA =
      .ok ([[PyVal.num (-(1/2)), PyVal.num (1/2), PyVal.num (3/2),
              PyVal.num (std [1, 2]), PyVal.num 2],
            [PyVal.num (-(1/2)), PyVal.num (1/2), PyVal.num (5/2),
              PyVal.num (std [2, 3]), PyVal.num 2],
            [PyVal.num (-(1/2)), PyVal.num (1/2), PyVal.num (7/2),
              PyVal.num (std [3, 4]), PyVal.num 2],
            [PyVal.num (-(1/2)), PyVal.num (1/2), PyVal.num (9/2),
              PyVal.num (std [4, 5]), PyVal.num 2],
            [PyVal.num (-(1/2)), PyVal.num (1/2), PyVal.num (11/2),
              PyVal.num (std [5, 6]), PyVal.num 2]],
           [[3], [4], [5], [6], [7]]) := by
  with_unfolding_all rfl

/-- Successful runs of `preprocess_from_list` decompose into the
heuristic, the collection loop on the updated state, and the final
store-or-return choice. -/
lemma preprocess_from_list_ok (mf : TimeSeries → ℤ → List PyVal)
    (rng : ℕ → ℕ → ℕ) (s : PState) (l : List TimeSeries) (chg : Bool)
    (s' : PState) (r : Option (List (List PyVal) × List (List ℚ)))
    (h : preprocess_from_list mf rng s l chg = .ok (s', r)) :
    ∃ ns p, get_num_samples s l = .ok ns ∧
      collectFromList mf rng { s with num_samples := Option.some ns }
        l 0 = .ok p ∧
      s' = (if chg then
              { s with
                  num_samples := Option.some ns
                  feature_data := Option.some p.1
                  target_data := Option.some p.2 }
            else { s with num_samples := Option.some ns }) ∧
      r = (if chg then Option.none else Option.some p) := by
  unfold preprocess_from_list at h
  cases hg : get_num_samples s l with
  | error e =>
    rw [hg] at h
    simp [Bind.bind, Except.bind] at h
  | ok ns =>
    rw [hg] at h
    simp only [Bind.bind, Except.bind] at h
    cases hc : collectFromList mf rng
        { s with num_samples := Option.some ns } l 0 with
    | error e =>
      rw [hc] at h
      simp at h
    | ok p =>
      rw [hc] at h
      replace h : (if chg = true then
          Except.ok ({ s with
              num_samples := Option.some ns
              feature_data := Option.some p.1
              target_data := Option.some p.2 }, Option.none)
        else
          Except.ok ({ s with num_samples := Option.some ns },
            Option.some p)) = Except.ok (s', r) := h
      refine ⟨ns, p, rfl, hc, ?_⟩
      cases chg with
      | true =>
        rw [if_pos rfl] at h
        injection h with h2
        injection h2 with ha hb
        subst ha
        subst hb
        exact ⟨rfl, rfl⟩
      | false =>
        rw [if_neg (by simp)] at h
        injection h with h2
        injection h2 with ha hb
        subst ha
        subst hb
        exact ⟨rfl, rfl⟩

/-- C9: a freshly constructed `PreprocessOnlyLagFeatures` keeps
`num_samples = None` (the constructor argument lands in `kwargs`), so
`preprocess_from_single_ts` raises TypeError on every series long enough
for a window; only `preprocess_from_list` puts a number into
`num_samples`. -/
theorem fresh_lag_preprocessor_type_error (c h : ℤ) (strat : Bool)
    (nig ns : ℤ) (st : PState)
    (hinit : PreprocessOnlyLagFeatures.init c h strat nig ns = .ok st) :
    st.num_samples = Option.none ∧
    st.kwargs_num_samples = Option.some ns ∧
    (∀ (mf : TimeSeries → ℤ → List PyVal) (draws : ℕ → ℕ)
       (ts : TimeSeries), 1 ≤ maxNumContextWindows st ts →
      preprocess_from_single_ts mf draws st ts = .error .typeError) ∧
    (∀ (mf : TimeSeries → ℤ → List PyVal) (rng : ℕ → ℕ → ℕ)
       (l : List TimeSeries) (chg : Bool) (s' : PState)
       (r : Option (List (List PyVal) × List (List ℚ))),
      preprocess_from_list mf rng st l chg = .ok (s', r) →
      ∃ v, s'.num_samples = Option.some v) := by
  unfold PreprocessOnlyLagFeatures.init PreprocessGeneric.init at hinit
  split at hinit
  · exact absurd hinit (by simp)
  · simp only [Except.ok.injEq] at hinit
    subst hinit
    refine ⟨rfl, rfl, ?_, ?_⟩
    · intro mf draws ts hmax
      simp only [preprocess_from_single_ts]
      rw [if_neg (by omega)]
    · intro mf rng l chg s' r hpl
      obtain ⟨ns', p, -, -, hs', -⟩ :=
        preprocess_from_list_ok mf rng _ l chg s' r hpl
      refine ⟨ns', ?_⟩
      rw [hs']
      cases chg <;> rfl

/-- Witness for C9 at `PreprocessOnlyLagFeatures(2, 1, False, 0, 7)` on
the seven-point series, and twenty three-point series for the
`preprocess_from_list` part. -/
theorem fresh_lag_preprocessor_type_error_witness :
    stC9.num_samples = Option.none ∧
    stC9.kwargs_num_samples = Option.some 7 ∧
    preprocess_from_single_ts mfW drawsW stC9 tsA = .error .typeError ∧
    ∃ v, ({ stC9 with num_samples := Option.some (-1) } : PState).num_samples
      = Option.some v := by
  obtain ⟨h1, h2, h3, h4⟩ :=
    fresh_lag_preprocessor_type_error 2 1 false 0 7 stC9 (by decide)
  exact ⟨h1, h2, h3 mfW drawsW tsA (by decide),
    h4 mfW rngW (List.replicate 20 tsThree) false
      { stC9 with num_samples := Option.some (-1) }
      (Option.some (List.replicate 20 ([] : List PyVal),
        List.replicate 20 [(3 : ℚ)]))
      (by decide)⟩

/-- C10: `preprocess_from_single_ts` leaves both the state and its input
series untouched; a successful `preprocess_from_list` always overwrites
`num_samples` with the heuristic's value, stores the collated lists and
returns `None` exactly when `change_internal_variables` is set, returns
them and leaves the stored lists alone otherwise, and never touches the
remaining attributes. -/
theorem preprocess_frame_conditions :
    (∀ (mf : TimeSeries → ℤ → List PyVal) (draws : ℕ → ℕ) (s : PState)
       (ts : TimeSeries),
      (preprocess_from_single_ts_st mf draws s ts).1 = s ∧
      (preprocess_from_single_ts_st mf draws s ts).2.1 = ts ∧
      (preprocess_from_single_ts_st mf draws s ts).2.2 =
        preprocess_from_single_ts mf draws s ts) ∧
    (∀ (mf : TimeSeries → ℤ → List PyVal) (rng : ℕ → ℕ → ℕ) (s : PState)
       (l : List TimeSeries) (chg : Bool) (s' : PState)
       (r : Option (List (List PyVal) × List (List ℚ))),
      preprocess_from_list mf rng s l chg = .ok (s', r) →
      ∃ ns p, get_num_samples s l = .ok ns ∧
        collectFromList mf rng { s with num_samples := Option.some ns }
          l 0 = .ok p ∧
        s'.num_samples = Option.some ns ∧
        (chg = true → s'.feature_data = Option.some p.1 ∧
          s'.target_data = Option.some p.2 ∧ r = Option.none) ∧
        (chg = false → s'.feature_data = s.feature_data ∧
          s'.target_data = s.target_data ∧ r = Option.some p) ∧
        s'.context_window_size = s.context_window_size ∧
        s'.forecast_horizon = s.forecast_horizon ∧
        s'.stratify_targets = s.stratify_targets ∧
        s'.n_ignore_last = s.n_ignore_last ∧
        s'.kwargs_num_samples = s.kwargs_num_samples) := by
  constructor
  · intro mf draws s ts
    exact ⟨rfl, rfl, rfl⟩
  · intro mf rng s l chg s' r h
    obtain ⟨ns, p, hg, hc, hs', hr⟩ :=
      preprocess_from_list_ok mf rng s l chg s' r h
    subst hs'
    subst hr
    refine ⟨ns, p, hg, hc, ?_⟩
    cases chg <;> simp

/-- Witness for C10: the untouched-state part on the seven-point series,
and a run of `preprocess_from_list` over twenty three-point series with
`change_internal_variables = True`. -/
theorem preprocess_frame_conditions_witness :
    (preprocess_from_single_ts_st mfW drawsW sEnum tsA).1 = sEnum ∧
    (preprocess_from_single_ts_st mfW drawsW sEnum tsA).2.1 = tsA ∧
    (∃ ns p,
      get_num_samples sEnum (List.replicate 20 tsThree) = .ok ns ∧
      collectFromList mfW rngW
        { sEnum with num_samples := Option.some ns }
        (List.replicate 20 tsThree) 0 = .ok p ∧
      sAfter.num_samples = Option.some ns ∧
      (true = true →
        sAfter.feature_data = Option.some p.1 ∧
        sAfter.target_data = Option.some p.2 ∧
        (Option.none : Option (List (List PyVal) × List (List ℚ)))
          = Option.none) ∧
      (true = false →
        sAfter.feature_data = sEnum.feature_data ∧
        sAfter.target_data = sEnum.target_data ∧
        (Option.none : Option (List (List PyVal) × List (List ℚ)))
          = Option.some p) ∧
      sAfter.context_window_size = sEnum.context_window_size ∧
      sAfter.forecast_horizon = sEnum.forecast_horizon ∧
      sAfter.stratify_targets = sEnum.stratify_targets ∧
      sAfter.n_ignore_last = sEnum.n_ignore_last ∧
      sAfter.kwargs_num_samples = sEnum.kwargs_num_samples) :=
  ⟨(preprocess_frame_conditions.1 mfW drawsW sEnum tsA).1,
   (preprocess_frame_conditions.1 mfW drawsW sEnum tsA).2.1,
   preprocess_frame_conditions.2 mfW rngW sEnum
     (List.replicate 20 tsThree) true sAfter Option.none (by decide)⟩

end Rotbaum
